import Mathlib

/-!
# Shallow embedding of the helix-swarm endpoint groups

This file embeds the two endpoint-group modules of the helix-swarm client
library, `src/helixswarm/endpoints/groups.py` (`Groups`) and
`src/helixswarm/endpoints/reviews.py` (`Reviews`), and proves the marshalling
contract stated for them.

Modelling choices, in one place:

* A Python keyword argument with default `None` becomes an `Option` value.
  Python truthiness (`if x:`) on optionals becomes the `truthyI` / `truthyS` /
  `truthyL` / `truthyB` predicates below (`None`, `0`, `""`, `[]`, `False` are
  falsy); the explicit `x is not None` tests on the tri-state boolean filters
  become `Option.isSome`.
* A Python `dict` built by a chain of `if cond: d[key] = value` statements with
  pairwise-distinct keys becomes a concatenation of `optEntry` segments, an
  association list in insertion order; `lookupKey` is dict lookup.
* `self.swarm` becomes an explicit `Swarm ρ` record holding the negotiated
  `api_version`, the `apiVersions` sequence returned by `get_version()`, and
  the transport `_request`, modelled as a function from a request descriptor
  `Req` to an opaque response type `ρ`.  Each endpoint method returns
  `Except Exc ρ`: `.error` is a raised `SwarmError` (validation) or
  `SwarmCompatibleError` (compatibility), `.ok` is the transport's response
  returned unchanged.
* `_request(method, path, params=..., data=..., json=...)` becomes a `Req`
  record whose three optional fields mirror the three keyword arguments.
-/

namespace HelixSwarm

/-- Wire-level values that the endpoint methods place into query-parameter and
payload mappings: integers, strings, booleans, and lists thereof. -/
inductive Val where
  | i  : Int → Val
  | s  : String → Val
  | b  : Bool → Val
  | sl : List String → Val
  | il : List Int → Val

deriving instance DecidableEq, Repr for Val

/-- Exceptions raised by the endpoint methods before dispatching a request:
`swarmError` embeds `SwarmError` (the validation error raised by
`Groups.create`), `compatError` embeds `SwarmCompatibleError` (the
compatibility error raised by the version guards). -/
inductive Exc where
  | swarmError : String → Exc
  | compatError : String → Exc

deriving instance DecidableEq, Repr for Exc

/-- A request descriptor: the argument tuple passed to the shared
`self.swarm._request` transport method.  `params`, `data` and `json` mirror
the three optional keyword arguments of `_request` (query parameters,
form-encoded body, structured JSON body). -/
structure Req where
  method : String
  path : String
  params : Option (List (String × Val))
  data : Option (List (String × Val))
  json : Option (List (String × Val))

deriving instance DecidableEq, Repr for Req

/-- The shared client context (`self.swarm`): the negotiated API version
(`self.swarm.api_version`), the `apiVersions` field of `get_version()`, and
the transport `_request`, abstracted as a function into an opaque response
type `ρ`. -/
structure Swarm (ρ : Type) where
  api_version : Int
  apiVersions : List Int
  request : Req → ρ

/-- Python truthiness of an optional integer: `None` and `0` are falsy. -/
def truthyI : Option Int → Bool
  | none => false
  | some n => n != 0

/-- Python truthiness of an optional string: `None` and `""` are falsy. -/
def truthyS : Option String → Bool
  | none => false
  | some s => !s.isEmpty

/-- Python truthiness of an optional list: `None` and `[]` are falsy. -/
def truthyL {α : Type} : Option (List α) → Bool
  | none => false
  | some l => !l.isEmpty

/-- Python truthiness of an optional boolean: `None` and `False` are falsy. -/
def truthyB : Option Bool → Bool
  | none => false
  | some b => b

/-- One `if cond: mapping[key] = value` statement: contributes a single-entry
segment when the condition holds and nothing otherwise. -/
def optEntry (c : Bool) (k : String) (v : Val) : List (String × Val) :=
  if c then [(k, v)] else []

/-- Dictionary lookup in the built association list (keys are pairwise
distinct in every mapping built by the endpoint methods). -/
def lookupKey (k : String) : List (String × Val) → Option Val
  | [] => none
  | (k', v) :: rest => if k = k' then some v else lookupKey k rest

/-- Python's `str(int(b))` on a boolean: `"1"` for `True`, `"0"` for `False`. -/
def boolStr (b : Bool) : String :=
  if b then "1" else "0"

/-- Modelled from the spec: the `minimal_version` decorator from
`helixswarm.helpers` (a module that is not part of the sources); per the spec,
every `Groups` operation requires negotiated API version ≥ 2 and fails with a
`CompatibilityError`, raised before any request is sent, otherwise. -/
def minimal_version {ρ : Type} (n : Int) (sw : Swarm ρ) (body : Except Exc ρ) :
    Except Exc ρ :=
  if sw.api_version < n then
    .error (Exc.compatError ("Swarm API version >= " ++ toString n ++ " required"))
  else
    body

namespace Reviews

variable {ρ : Type}

/-- The query-parameter mapping built by `Reviews.get` (reviews.py lines
97-132): one `optEntry` segment per `if` statement, in source order. -/
def getParams (after limit : Option Int) (fields authors : Option (List String))
    (changes : Option (List Int)) (has_reviewers : Option Bool)
    (ids : Option (List Int)) (keywords : Option String)
    (participants projects states : Option (List String))
    (passes_tests : Option Bool) (not_updated_since has_voted : Option String)
    (my_comments : Option Bool) : List (String × Val) :=
  optEntry (truthyI after) "after" (Val.i (after.getD 0)) ++
  optEntry (truthyI limit) "max" (Val.i (limit.getD 0)) ++
  optEntry (truthyL fields) "fields" (Val.s (String.intercalate "," (fields.getD []))) ++
  optEntry (truthyL authors) "author" (Val.sl (authors.getD [])) ++
  optEntry (truthyL changes) "change" (Val.il (changes.getD [])) ++
  optEntry has_reviewers.isSome "hasReviewers" (Val.s (boolStr (has_reviewers.getD false))) ++
  optEntry (truthyL ids) "ids" (Val.il (ids.getD [])) ++
  optEntry (truthyS keywords) "keywords" (Val.s (keywords.getD "")) ++
  optEntry (truthyL participants) "participants" (Val.sl (participants.getD [])) ++
  optEntry (truthyL projects) "project" (Val.sl (projects.getD [])) ++
  optEntry (truthyL states) "state" (Val.sl (states.getD [])) ++
  optEntry passes_tests.isSome "passesTests" (Val.s (boolStr (passes_tests.getD false))) ++
  optEntry (truthyS not_updated_since) "notUpdatedSince" (Val.s (not_updated_since.getD "")) ++
  optEntry (truthyS has_voted) "hasVoted" (Val.s (has_voted.getD "")) ++
  optEntry my_comments.isSome "myComments" (Val.s (boolStr (my_comments.getD false)))

/-- `Reviews.get` (reviews.py lines 11-134): list reviews.  Raises
`SwarmCompatibleError` when `authors` is truthy and the negotiated version is
below 2 (the mapping entries added before that check are discarded by the
raise, so the built mapping is observably `getParams`); otherwise issues one
`GET reviews` request with the built query parameters. -/
def get (sw : Swarm ρ) (after limit : Option Int)
    (fields authors : Option (List String)) (changes : Option (List Int))
    (has_reviewers : Option Bool) (ids : Option (List Int))
    (keywords : Option String) (participants projects states : Option (List String))
    (passes_tests : Option Bool) (not_updated_since has_voted : Option String)
    (my_comments : Option Bool) : Except Exc ρ :=
  if truthyL authors = true ∧ sw.api_version < 2 then
    .error (Exc.compatError "author field is supported from API version >= 2")
  else
    .ok (sw.request ⟨"GET", "reviews",
      some (getParams after limit fields authors changes has_reviewers ids
        keywords participants projects states passes_tests not_updated_since
        has_voted my_comments), none, none⟩)

/-- The query-parameter mapping built by `Reviews.get_info` (reviews.py lines
154-157). -/
def get_infoParams (fields : Option (List String)) : List (String × Val) :=
  optEntry (truthyL fields) "fields" (Val.s (String.intercalate "," (fields.getD [])))

/-- `Reviews.get_info` (reviews.py lines 136-165): one `GET reviews/{id}`
request, no version guard. -/
def get_info (sw : Swarm ρ) (review_id : Int) (fields : Option (List String)) :
    Except Exc ρ :=
  .ok (sw.request ⟨"GET", "reviews/" ++ toString review_id,
    some (get_infoParams fields), none, none⟩)

/-- The query-parameter mapping built by `Reviews.get_transitions`
(reviews.py lines 190-193). -/
def transParams (up_voters : Option String) : List (String × Val) :=
  optEntry (truthyS up_voters) "upVoters" (Val.s (up_voters.getD ""))

/-- `Reviews.get_transitions` (reviews.py lines 167-201): raises
`SwarmCompatibleError` below version 9, otherwise one
`GET reviews/{id}/transitions` request. -/
def get_transitions (sw : Swarm ρ) (review_id : Int) (up_voters : Option String) :
    Except Exc ρ :=
  if sw.api_version < 9 then
    .error (Exc.compatError "get_transitions is supported with API v9+")
  else
    .ok (sw.request ⟨"GET", "reviews/" ++ toString review_id ++ "/transitions",
      some (transParams up_voters), none, none⟩)

/-- The payload mapping built by `Reviews.create` (reviews.py lines 232-252):
`change` is unconditional, the rest follow the truthiness rule. -/
def createData (change : Int) (description : Option String)
    (reviewers required_reviewers reviewer_groups : Option (List String)) :
    List (String × Val) :=
  ("change", Val.i change) ::
  (optEntry (truthyS description) "description" (Val.s (description.getD "")) ++
   optEntry (truthyL reviewers) "reviewers" (Val.sl (reviewers.getD [])) ++
   optEntry (truthyL required_reviewers) "requiredReviewers"
     (Val.sl (required_reviewers.getD [])) ++
   optEntry (truthyL reviewer_groups) "reviewerGroups"
     (Val.sl (reviewer_groups.getD [])))

/-- `Reviews.create` (reviews.py lines 203-254): raises
`SwarmCompatibleError` when `required_reviewers` is truthy at version 1, then
when `reviewer_groups` is truthy below version 7 (the source adds the entry
and then checks, but the raise discards the mapping); otherwise one
`POST reviews` request with the form payload. -/
def create (sw : Swarm ρ) (change : Int) (description : Option String)
    (reviewers required_reviewers reviewer_groups : Option (List String)) :
    Except Exc ρ :=
  if truthyL required_reviewers = true ∧ sw.api_version = 1 then
    .error (Exc.compatError "required_reviewers field is supported from API version > 1")
  else if truthyL reviewer_groups = true ∧ sw.api_version < 7 then
    .error (Exc.compatError "reviewer_groups field is supported from API version > 6")
  else
    .ok (sw.request ⟨"POST", "reviews", none,
      some (createData change description reviewers required_reviewers reviewer_groups),
      none⟩)

/-- The payload mapping built by `Reviews.archive` (reviews.py lines 276-279):
both fields unconditional. -/
def archiveData (not_updated_since description : String) : List (String × Val) :=
  [("notUpdatedSince", Val.s not_updated_since), ("description", Val.s description)]

/-- `Reviews.archive` (reviews.py lines 256-281): raises
`SwarmCompatibleError` below version 6, otherwise one `POST reviews/archive`
request. -/
def archive (sw : Swarm ρ) (not_updated_since description : String) :
    Except Exc ρ :=
  if sw.api_version < 6 then
    .error (Exc.compatError "archive is supported with API v6+")
  else
    .ok (sw.request ⟨"POST", "reviews/archive", none,
      some (archiveData not_updated_since description), none⟩)

/-- The payload mapping built by `Reviews.cleanup` (reviews.py lines 304-307):
`reopen` only when truthy (i.e. explicitly `True`). -/
def cleanupData (reopen : Option Bool) : List (String × Val) :=
  optEntry (truthyB reopen) "reopen" (Val.b (reopen.getD false))

/-- `Reviews.cleanup` (reviews.py lines 283-315): raises
`SwarmCompatibleError` below version 6, otherwise one
`POST reviews/{id}/cleanup` request. -/
def cleanup (sw : Swarm ρ) (review_id : Int) (reopen : Option Bool) :
    Except Exc ρ :=
  if sw.api_version < 6 then
    .error (Exc.compatError "cleanup is supported with API v6+")
  else
    .ok (sw.request ⟨"POST", "reviews/" ++ toString review_id ++ "/cleanup",
      none, some (cleanupData reopen), none⟩)

end Reviews

namespace Groups

variable {ρ : Type}

/-- The query-parameter mapping built by `Groups.get` (groups.py lines
49-61). -/
def getParams (after : Option String) (limit : Option Int)
    (fields : Option (List String)) (keywords : Option String) :
    List (String × Val) :=
  optEntry (truthyS after) "after" (Val.s (after.getD "")) ++
  optEntry (truthyI limit) "max" (Val.i (limit.getD 0)) ++
  optEntry (truthyL fields) "fields" (Val.s (String.intercalate "," (fields.getD []))) ++
  optEntry (truthyS keywords) "keywords" (Val.s (keywords.getD ""))

/-- `Groups.get` (groups.py lines 12-63): guarded by `minimal_version 2`,
then one `GET groups` request. -/
def get (sw : Swarm ρ) (after : Option String) (limit : Option Int)
    (fields : Option (List String)) (keywords : Option String) : Except Exc ρ :=
  minimal_version 2 sw
    (.ok (sw.request ⟨"GET", "groups",
      some (getParams after limit fields keywords), none, none⟩))

/-- The query-parameter mapping built by `Groups.get_info` (groups.py lines
85-88). -/
def get_infoParams (fields : Option (List String)) : List (String × Val) :=
  optEntry (truthyL fields) "fields" (Val.s (String.intercalate "," (fields.getD [])))

/-- `Groups.get_info` (groups.py lines 65-96): guarded by `minimal_version 2`,
then one `GET groups/{identifier}` request. -/
def get_info (sw : Swarm ρ) (identifier : String)
    (fields : Option (List String)) : Except Exc ρ :=
  minimal_version 2 sw
    (.ok (sw.request ⟨"GET", "groups/" ++ identifier,
      some (get_infoParams fields), none, none⟩))

/-- The payload mapping built by `Groups.create` (groups.py lines 174-227):
`Group` is unconditional, the rest follow the truthiness rule. -/
def createData (identifier : String) (users owners subgroups : Option (List String))
    (name description email_address : Option String)
    (notify_reviews notify_commits use_mailing_list : Option Bool)
    (max_results max_scan_rows max_lock_time max_open_files max_memory
     timeout password_timeout : Option Int) : List (String × Val) :=
  ("Group", Val.s identifier) ::
  (optEntry (truthyL users) "Users" (Val.sl (users.getD [])) ++
   optEntry (truthyL owners) "Owners" (Val.sl (owners.getD [])) ++
   optEntry (truthyL subgroups) "Subgroups" (Val.sl (subgroups.getD [])) ++
   optEntry (truthyS name) "config[name]" (Val.s (name.getD "")) ++
   optEntry (truthyS description) "config[description]" (Val.s (description.getD "")) ++
   optEntry (truthyS email_address) "config[emailAddress]" (Val.s (email_address.getD "")) ++
   optEntry (truthyB notify_reviews) "config[emailFlags][reviews]"
     (Val.b (notify_reviews.getD false)) ++
   optEntry (truthyB notify_commits) "config[emailFlags][commits]"
     (Val.b (notify_commits.getD false)) ++
   optEntry (truthyB use_mailing_list) "config[useMailingList]"
     (Val.b (use_mailing_list.getD false)) ++
   optEntry (truthyI max_results) "MaxResults" (Val.i (max_results.getD 0)) ++
   optEntry (truthyI max_scan_rows) "MaxScanRows" (Val.i (max_scan_rows.getD 0)) ++
   optEntry (truthyI max_lock_time) "MaxLockTime" (Val.i (max_lock_time.getD 0)) ++
   optEntry (truthyI max_open_files) "MaxOpenFiles" (Val.i (max_open_files.getD 0)) ++
   optEntry (truthyI max_memory) "MaxMemory" (Val.i (max_memory.getD 0)) ++
   optEntry (truthyI timeout) "Timeout" (Val.i (timeout.getD 0)) ++
   optEntry (truthyI password_timeout) "PasswordTimeout" (Val.i (password_timeout.getD 0)))

/-- `Groups.create` (groups.py lines 98-233): guarded by `minimal_version 2`;
raises `SwarmError` unless at least one of `users`, `owners`, `subgroups` is
truthy; fetches `get_version()` and sends the payload as a structured JSON
body when `11` is among `apiVersions`, as a form-encoded body otherwise: one
`POST groups` request either way. -/
def create (sw : Swarm ρ) (identifier : String)
    (users owners subgroups : Option (List String))
    (name description email_address : Option String)
    (notify_reviews notify_commits use_mailing_list : Option Bool)
    (max_results max_scan_rows max_lock_time max_open_files max_memory
     timeout password_timeout : Option Int) : Except Exc ρ :=
  minimal_version 2 sw
    (if truthyL users || truthyL owners || truthyL subgroups then
      (if (11 : Int) ∈ sw.apiVersions then
        .ok (sw.request ⟨"POST", "groups", none, none,
          some (createData identifier users owners subgroups name description
            email_address notify_reviews notify_commits use_mailing_list
            max_results max_scan_rows max_lock_time max_open_files max_memory
            timeout password_timeout)⟩)
      else
        .ok (sw.request ⟨"POST", "groups", none,
          some (createData identifier users owners subgroups name description
            email_address notify_reviews notify_commits use_mailing_list
            max_results max_scan_rows max_lock_time max_open_files max_memory
            timeout password_timeout), none⟩))
    else
      .error (Exc.swarmError "At least one of users, owners, or subgroups is required"))

/-- The payload mapping built by `Groups.edit` (groups.py lines 291-318). -/
def editData (users owners subgroups : Option (List String))
    (name description email_address : Option String)
    (notify_reviews notify_commits use_mailing_list : Option Bool) :
    List (String × Val) :=
  optEntry (truthyL users) "Users" (Val.sl (users.getD [])) ++
  optEntry (truthyL owners) "Owners" (Val.sl (owners.getD [])) ++
  optEntry (truthyL subgroups) "Subgroups" (Val.sl (subgroups.getD [])) ++
  optEntry (truthyS name) "config[name]" (Val.s (name.getD "")) ++
  optEntry (truthyS description) "config[description]" (Val.s (description.getD "")) ++
  optEntry (truthyS email_address) "config[emailAddress]" (Val.s (email_address.getD "")) ++
  optEntry (truthyB notify_reviews) "config[emailFlags][reviews]"
    (Val.b (notify_reviews.getD false)) ++
  optEntry (truthyB notify_commits) "config[emailFlags][commits]"
    (Val.b (notify_commits.getD false)) ++
  optEntry (truthyB use_mailing_list) "config[useMailingList]"
    (Val.b (use_mailing_list.getD false))

/-- `Groups.edit` (groups.py lines 235-326): guarded by `minimal_version 2`,
then one `PATCH groups/{identifier}` request with the form payload. -/
def edit (sw : Swarm ρ) (identifier : String)
    (users owners subgroups : Option (List String))
    (name description email_address : Option String)
    (notify_reviews notify_commits use_mailing_list : Option Bool) :
    Except Exc ρ :=
  minimal_version 2 sw
    (.ok (sw.request ⟨"PATCH", "groups/" ++ identifier, none,
      some (editData users owners subgroups name description email_address
        notify_reviews notify_commits use_mailing_list), none⟩))

/-- `Groups.delete` (groups.py lines 328-340): guarded by `minimal_version 2`,
then one `DELETE groups/{identifier}` request with no payload. -/
def delete (sw : Swarm ρ) (identifier : String) : Except Exc ρ :=
  minimal_version 2 sw
    (.ok (sw.request ⟨"DELETE", "groups/" ++ identifier, none, none, none⟩))

end Groups

/-- Lookup distributes over an `optEntry` segment followed by the rest of the
mapping. -/
theorem lookupKey_optEntry_append (k k' : String) (c : Bool) (v : Val)
    (rest : List (String × Val)) :
    lookupKey k (optEntry c k' v ++ rest) =
      if k = k' ∧ c = true then some v else lookupKey k rest := by
  cases c <;> by_cases h : k = k' <;> simp [optEntry, lookupKey, h]

/-- Lookup in a single `optEntry` segment. -/
theorem lookupKey_optEntry (k k' : String) (c : Bool) (v : Val) :
    lookupKey k (optEntry c k' v) =
      if k = k' ∧ c = true then some v else none := by
  cases c <;> by_cases h : k = k' <;> simp [optEntry, lookupKey, h]

/-- Whether a result of an endpoint call is a raised `SwarmError`
(the validation error kind). -/
def isValidationError {ρ : Type} : Except Exc ρ → Bool
  | .error (Exc.swarmError _) => true
  | _ => false

/-! ## Call-shape lemmas

For each endpoint method, viewed as a family over the response type and the
transport with the version data fixed: either the call raises an exception
that does not depend on the transport at all (so the transport is never
invoked), or there is a single request descriptor, independent of the
transport, such that the call returns the transport's response to it. -/

/-- The two possible shapes of an endpoint call, as a predicate on the
call viewed as a family over response type and transport. -/
def CallShape (F : (ρ : Type) → (Req → ρ) → Except Exc ρ) : Prop :=
  (∃ e, ∀ (ρ : Type) (t : Req → ρ), F ρ t = .error e) ∨
  (∃ req, ∀ (ρ : Type) (t : Req → ρ), F ρ t = .ok (t req))

/-- A call of either shape that returns successfully returns the transport's
response to some request. -/
theorem CallShape.ok_eq (F : (ρ : Type) → (Req → ρ) → Except Exc ρ)
    (hs : CallShape F) (ρ : Type) (t : Req → ρ) (r : ρ)
    (hr : F ρ t = .ok r) : ∃ req, r = t req := by
  rcases hs with ⟨e, he⟩ | ⟨req, hok⟩
  · rw [he ρ t] at hr
    exact Except.noConfusion hr
  · rw [hok ρ t] at hr
    injection hr with h
    exact ⟨req, h.symm⟩

/-- Any call guarded only by `minimal_version` and otherwise returning one
request has the call shape. -/
theorem callShape_minimal_version (n : Int) (v : Int) (avs : List Int)
    (req : Req) :
    CallShape (fun ρ t => minimal_version n ⟨v, avs, t⟩ (.ok (t req))) := by
  by_cases h : v < n
  · exact Or.inl ⟨Exc.compatError ("Swarm API version >= " ++ toString n ++ " required"),
      fun ρ t => by simp [minimal_version, h]⟩
  · exact Or.inr ⟨req, fun ρ t => by simp [minimal_version, h]⟩

theorem callShape_reviews_get (v : Int) (avs : List Int)
    (after limit : Option Int) (fields authors : Option (List String))
    (changes : Option (List Int)) (has_reviewers : Option Bool)
    (ids : Option (List Int)) (keywords : Option String)
    (participants projects states : Option (List String))
    (passes_tests : Option Bool) (not_updated_since has_voted : Option String)
    (my_comments : Option Bool) :
    CallShape (fun ρ t => Reviews.get ⟨v, avs, t⟩ after limit fields authors
      changes has_reviewers ids keywords participants projects states
      passes_tests not_updated_since has_voted my_comments) := by
  by_cases h : truthyL authors = true ∧ v < 2
  · exact Or.inl ⟨Exc.compatError "author field is supported from API version >= 2",
      fun ρ t => by simp [Reviews.get, h]⟩
  · exact Or.inr ⟨⟨"GET", "reviews",
      some (Reviews.getParams after limit fields authors changes has_reviewers
        ids keywords participants projects states passes_tests
        not_updated_since has_voted my_comments), none, none⟩,
      fun ρ t => by simp [Reviews.get, h]⟩

theorem callShape_reviews_get_info (v : Int) (avs : List Int)
    (review_id : Int) (fields : Option (List String)) :
    CallShape (fun ρ t => Reviews.get_info ⟨v, avs, t⟩ review_id fields) :=
  Or.inr ⟨⟨"GET", "reviews/" ++ toString review_id,
    some (Reviews.get_infoParams fields), none, none⟩,
    fun ρ t => rfl⟩

theorem callShape_reviews_get_transitions (v : Int) (avs : List Int)
    (review_id : Int) (up_voters : Option String) :
    CallShape (fun ρ t => Reviews.get_transitions ⟨v, avs, t⟩ review_id up_voters) := by
  by_cases h : v < 9
  · exact Or.inl ⟨Exc.compatError "get_transitions is supported with API v9+",
      fun ρ t => by simp [Reviews.get_transitions, h]⟩
  · exact Or.inr ⟨⟨"GET", "reviews/" ++ toString review_id ++ "/transitions",
      some (Reviews.transParams up_voters), none, none⟩,
      fun ρ t => by simp [Reviews.get_transitions, h]⟩

theorem callShape_reviews_create (v : Int) (avs : List Int) (change : Int)
    (description : Option String)
    (reviewers required_reviewers reviewer_groups : Option (List String)) :
    CallShape (fun ρ t => Reviews.create ⟨v, avs, t⟩ change description
      reviewers required_reviewers reviewer_groups) := by
  by_cases h1 : truthyL required_reviewers = true ∧ v = 1
  · exact Or.inl ⟨Exc.compatError "required_reviewers field is supported from API version > 1",
      fun ρ t => by simp [Reviews.create, h1]⟩
  · by_cases h2 : truthyL reviewer_groups = true ∧ v < 7
    · exact Or.inl ⟨Exc.compatError "reviewer_groups field is supported from API version > 6",
        fun ρ t => by simp [Reviews.create, h1, h2]⟩
    · exact Or.inr ⟨⟨"POST", "reviews", none,
        some (Reviews.createData change description reviewers
          required_reviewers reviewer_groups), none⟩,
        fun ρ t => by simp [Reviews.create, h1, h2]⟩

theorem callShape_reviews_archive (v : Int) (avs : List Int)
    (not_updated_since description : String) :
    CallShape (fun ρ t => Reviews.archive ⟨v, avs, t⟩ not_updated_since description) := by
  by_cases h : v < 6
  · exact Or.inl ⟨Exc.compatError "archive is supported with API v6+",
      fun ρ t => by simp [Reviews.archive, h]⟩
  · exact Or.inr ⟨⟨"POST", "reviews/archive", none,
      some (Reviews.archiveData not_updated_since description), none⟩,
      fun ρ t => by simp [Reviews.archive, h]⟩

theorem callShape_reviews_cleanup (v : Int) (avs : List Int)
    (review_id : Int) (reopen : Option Bool) :
    CallShape (fun ρ t => Reviews.cleanup ⟨v, avs, t⟩ review_id reopen) := by
  by_cases h : v < 6
  · exact Or.inl ⟨Exc.compatError "cleanup is supported with API v6+",
      fun ρ t => by simp [Reviews.cleanup, h]⟩
  · exact Or.inr ⟨⟨"POST", "reviews/" ++ toString review_id ++ "/cleanup",
      none, some (Reviews.cleanupData reopen), none⟩,
      fun ρ t => by simp [Reviews.cleanup, h]⟩

theorem callShape_groups_get (v : Int) (avs : List Int) (after : Option String)
    (limit : Option Int) (fields : Option (List String)) (keywords : Option String) :
    CallShape (fun ρ t => Groups.get ⟨v, avs, t⟩ after limit fields keywords) :=
  callShape_minimal_version 2 v avs
    ⟨"GET", "groups", some (Groups.getParams after limit fields keywords), none, none⟩

theorem callShape_groups_get_info (v : Int) (avs : List Int)
    (identifier : String) (fields : Option (List String)) :
    CallShape (fun ρ t => Groups.get_info ⟨v, avs, t⟩ identifier fields) :=
  callShape_minimal_version 2 v avs
    ⟨"GET", "groups/" ++ identifier, some (Groups.get_infoParams fields), none, none⟩

theorem callShape_groups_create (v : Int) (avs : List Int) (identifier : String)
    (users owners subgroups : Option (List String))
    (name description email_address : Option String)
    (notify_reviews notify_commits use_mailing_list : Option Bool)
    (max_results max_scan_rows max_lock_time max_open_files max_memory
     timeout password_timeout : Option Int) :
    CallShape (fun ρ t => Groups.create ⟨v, avs, t⟩ identifier users owners
      subgroups name description email_address notify_reviews notify_commits
      use_mailing_list max_results max_scan_rows max_lock_time max_open_files
      max_memory timeout password_timeout) := by
  by_cases h : v < 2
  · exact Or.inl ⟨Exc.compatError ("Swarm API version >= " ++ toString (2 : Int) ++ " required"),
      fun ρ t => by simp [Groups.create, minimal_version, h]⟩
  · by_cases hreq : (truthyL users || truthyL owners || truthyL subgroups) = true
    · by_cases h11 : (11 : Int) ∈ avs
      · exact Or.inr ⟨⟨"POST", "groups", none, none,
          some (Groups.createData identifier users owners subgroups name
            description email_address notify_reviews notify_commits
            use_mailing_list max_results max_scan_rows max_lock_time
            max_open_files max_memory timeout password_timeout)⟩,
          fun ρ t => by simp [Groups.create, minimal_version, h, hreq, h11]⟩
      · exact Or.inr ⟨⟨"POST", "groups", none,
          some (Groups.createData identifier users owners subgroups name
            description email_address notify_reviews notify_commits
            use_mailing_list max_results max_scan_rows max_lock_time
            max_open_files max_memory timeout password_timeout), none⟩,
          fun ρ t => by simp [Groups.create, minimal_version, h, hreq, h11]⟩
    · exact Or.inl ⟨Exc.swarmError "At least one of users, owners, or subgroups is required",
        fun ρ t => by simp [Groups.create, minimal_version, h, hreq]⟩

theorem callShape_groups_edit (v : Int) (avs : List Int) (identifier : String)
    (users owners subgroups : Option (List String))
    (name description email_address : Option String)
    (notify_reviews notify_commits use_mailing_list : Option Bool) :
    CallShape (fun ρ t => Groups.edit ⟨v, avs, t⟩ identifier users owners
      subgroups name description email_address notify_reviews notify_commits
      use_mailing_list) :=
  callShape_minimal_version 2 v avs
    ⟨"PATCH", "groups/" ++ identifier, none,
      some (Groups.editData users owners subgroups name description
        email_address notify_reviews notify_commits use_mailing_list), none⟩

theorem callShape_groups_delete (v : Int) (avs : List Int) (identifier : String) :
    CallShape (fun ρ t => Groups.delete ⟨v, avs, t⟩ identifier) :=
  callShape_minimal_version 2 v avs
    ⟨"DELETE", "groups/" ++ identifier, none, none, none⟩

/-! ## Claim theorems -/

/-- C1: for the three tri-state boolean filters of `Reviews.get`
(`has_reviewers`, `passes_tests`, `my_comments`) and every combination of the
other arguments, the wire key (`hasReviewers`, `passesTests`, `myComments`)
is absent from the built query-parameter mapping when the filter is unset,
and present with string value `"0"` / `"1"` when it is explicitly `false` /
`true`. -/
theorem reviews_get_tristate_filters (after limit : Option Int)
    (fields authors : Option (List String)) (changes : Option (List Int))
    (has_reviewers : Option Bool) (ids : Option (List Int))
    (keywords : Option String) (participants projects states : Option (List String))
    (passes_tests : Option Bool) (not_updated_since has_voted : Option String)
    (my_comments : Option Bool) :
    lookupKey "hasReviewers" (Reviews.getParams after limit fields authors
        changes has_reviewers ids keywords participants projects states
        passes_tests not_updated_since has_voted my_comments) =
      has_reviewers.map (fun b => Val.s (if b then "1" else "0")) ∧
    lookupKey "passesTests" (Reviews.getParams after limit fields authors
        changes has_reviewers ids keywords participants projects states
        passes_tests not_updated_since has_voted my_comments) =
      passes_tests.map (fun b => Val.s (if b then "1" else "0")) ∧
    lookupKey "myComments" (Reviews.getParams after limit fields authors
        changes has_reviewers ids keywords participants projects states
        passes_tests not_updated_since has_voted my_comments) =
      my_comments.map (fun b => Val.s (if b then "1" else "0")) := by
  refine ⟨?_, ?_, ?_⟩
  · cases has_reviewers <;>
      simp +decide [Reviews.getParams, lookupKey_optEntry_append,
        lookupKey_optEntry, boolStr]
  · cases passes_tests <;>
      simp +decide [Reviews.getParams, lookupKey_optEntry_append,
        lookupKey_optEntry, boolStr]
  · cases my_comments <;>
      simp +decide [Reviews.getParams, lookupKey_optEntry_append,
        lookupKey_optEntry, boolStr]

/-- C10: a `Reviews.get` call with `authors` supplied as the empty list never
raises a compatibility error (whatever the negotiated version, even below 2),
sends the request, and its query-parameter mapping carries no `author` key:
the version guard for `authors` fires only on a non-empty list. -/
theorem reviews_get_empty_authors (ρ : Type) (t : Req → ρ) (v : Int)
    (avs : List Int) (after limit : Option Int) (fields : Option (List String))
    (changes : Option (List Int)) (has_reviewers : Option Bool)
    (ids : Option (List Int)) (keywords : Option String)
    (participants projects states : Option (List String))
    (passes_tests : Option Bool) (not_updated_since has_voted : Option String)
    (my_comments : Option Bool) :
    Reviews.get ⟨v, avs, t⟩ after limit fields (some []) changes has_reviewers
        ids keywords participants projects states passes_tests
        not_updated_since has_voted my_comments =
      .ok (t ⟨"GET", "reviews",
        some (Reviews.getParams after limit fields (some []) changes
          has_reviewers ids keywords participants projects states passes_tests
          not_updated_since has_voted my_comments), none, none⟩) ∧
    lookupKey "author" (Reviews.getParams after limit fields (some []) changes
        has_reviewers ids keywords participants projects states passes_tests
        not_updated_since has_voted my_comments) = none := by
  constructor
  · simp [Reviews.get, truthyL]
  · simp +decide [Reviews.getParams, lookupKey_optEntry_append,
      lookupKey_optEntry, truthyL]

/-- C5: `Reviews.get_transitions` raises a `CompatibilityError` (and sends no
request) whenever the negotiated version is below 9; from version 9 on it
sends one `GET reviews/{id}/transitions` request whose query parameters carry
`upVoters` with the supplied value exactly when `up_voters` was supplied
non-empty, and returns the transport's response. -/
theorem reviews_get_transitions_gate (ρ : Type) (t : Req → ρ) (v : Int)
    (avs : List Int) (review_id : Int) (up_voters : Option String) :
    (v < 9 → Reviews.get_transitions ⟨v, avs, t⟩ review_id up_voters =
      .error (Exc.compatError "get_transitions is supported with API v9+")) ∧
    (9 ≤ v → Reviews.get_transitions ⟨v, avs, t⟩ review_id up_voters =
        .ok (t ⟨"GET", "reviews/" ++ toString review_id ++ "/transitions",
          some (Reviews.transParams up_voters), none, none⟩) ∧
      lookupKey "upVoters" (Reviews.transParams up_voters) =
        if truthyS up_voters = true then some (Val.s (up_voters.getD "")) else none) := by
  refine ⟨fun h => by simp [Reviews.get_transitions, h], fun h => ⟨?_, ?_⟩⟩
  · have hn : ¬ v < 9 := not_lt.mpr h
    simp [Reviews.get_transitions, hn]
  · simp +decide [Reviews.transParams, lookupKey_optEntry]

/-- Witness for C5: at version 9 with `up_voters = "bob"` the request carries
`upVoters = "bob"`; at version 8 the call raises the v9 compatibility
error. -/
theorem reviews_get_transitions_gate_witness :
    Reviews.get_transitions ⟨9, [], (id : Req → Req)⟩ 1 (some "bob") =
      .ok ⟨"GET", "reviews/" ++ toString (1 : Int) ++ "/transitions",
        some (Reviews.transParams (some "bob")), none, none⟩ ∧
    lookupKey "upVoters" (Reviews.transParams (some "bob")) = some (Val.s "bob") ∧
    Reviews.get_transitions ⟨8, [], (id : Req → Req)⟩ 1 (some "bob") =
      .error (Exc.compatError "get_transitions is supported with API v9+") := by
  have h9 := (reviews_get_transitions_gate Req id 9 [] 1 (some "bob")).2 (by decide)
  have h8 := (reviews_get_transitions_gate Req id 8 [] 1 (some "bob")).1 (by decide)
  exact ⟨h9.1, h9.2.trans (by decide), h8⟩

/-- C6: `Reviews.create` always places `change` in the payload; with
`required_reviewers` non-empty at version 1 it raises a `CompatibilityError`
and sends nothing; with `reviewer_groups` non-empty below version 7 it raises
a `CompatibilityError` and sends nothing; with `reviewer_groups` non-empty at
version 7 or later it sends the request, whose payload carries
`reviewerGroups` with the supplied value. -/
theorem reviews_create_gates (ρ : Type) (t : Req → ρ) (v : Int)
    (avs : List Int) (change : Int) (description : Option String)
    (reviewers required_reviewers reviewer_groups : Option (List String)) :
    lookupKey "change" (Reviews.createData change description reviewers
      required_reviewers reviewer_groups) = some (Val.i change) ∧
    (truthyL required_reviewers = true → v = 1 →
      Reviews.create ⟨v, avs, t⟩ change description reviewers
          required_reviewers reviewer_groups =
        .error (Exc.compatError "required_reviewers field is supported from API version > 1")) ∧
    (truthyL reviewer_groups = true → v < 7 → ∃ m,
      Reviews.create ⟨v, avs, t⟩ change description reviewers
          required_reviewers reviewer_groups = .error (Exc.compatError m)) ∧
    (truthyL reviewer_groups = true → 7 ≤ v →
      Reviews.create ⟨v, avs, t⟩ change description reviewers
          required_reviewers reviewer_groups =
        .ok (t ⟨"POST", "reviews", none,
          some (Reviews.createData change description reviewers
            required_reviewers reviewer_groups), none⟩) ∧
      lookupKey "reviewerGroups" (Reviews.createData change description
          reviewers required_reviewers reviewer_groups) =
        some (Val.sl (reviewer_groups.getD []))) := by
  refine ⟨?_, ?_, ?_, ?_⟩
  · simp [Reviews.createData, lookupKey]
  · intro hr hv
    simp [Reviews.create, hr, hv]
  · intro hg hv
    by_cases h1 : truthyL required_reviewers = true ∧ v = 1
    · exact ⟨"required_reviewers field is supported from API version > 1",
        by simp [Reviews.create, h1]⟩
    · exact ⟨"reviewer_groups field is supported from API version > 6",
        by simp [Reviews.create, h1, hg, hv]⟩
  · intro hg hv
    have h1 : ¬ (truthyL required_reviewers = true ∧ v = 1) := by
      rintro ⟨-, rfl⟩
      omega
    have h2 : ¬ (truthyL reviewer_groups = true ∧ v < 7) := by
      rintro ⟨-, hlt⟩
      omega
    constructor
    · simp [Reviews.create, h1, h2]
    · simp +decide [Reviews.createData, lookupKey, lookupKey_optEntry_append,
        lookupKey_optEntry, hg]

/-- Witness for C6: at version 7 with `reviewer_groups = ["g1"]` the call of
`Reviews.create` dispatches the payload and it carries `reviewerGroups`; at
version 1 with `required_reviewers` non-empty, and at version 6 with
`reviewer_groups` non-empty, it raises. -/
theorem reviews_create_gates_witness :
    Reviews.create ⟨7, [], (id : Req → Req)⟩ 42 none none none (some ["g1"]) =
      .ok ⟨"POST", "reviews", none,
        some (Reviews.createData 42 none none none (some ["g1"])), none⟩ ∧
    lookupKey "reviewerGroups" (Reviews.createData 42 none none none (some ["g1"])) =
      some (Val.sl ["g1"]) ∧
    Reviews.create ⟨1, [], (id : Req → Req)⟩ 42 none none (some ["r1"]) none =
      .error (Exc.compatError "required_reviewers field is supported from API version > 1") := by
  have h7 := (reviews_create_gates Req id 7 [] 42 none none none
    (some ["g1"])).2.2.2 (by decide) (by decide)
  have h1 := (reviews_create_gates Req id 1 [] 42 none none (some ["r1"])
    none).2.1 (by decide) rfl
  exact ⟨h7.1, h7.2, h1⟩

/-- C8: `Reviews.get` renames the wire keys of the supplied non-empty values
(`limit`→`max`, `fields`→comma-joined `fields`, `authors`→`author`,
`changes`→`change`, `projects`→`project`, `states`→`state`,
`not_updated_since`→`notUpdatedSince`, `has_voted`→`hasVoted`), and raises a
`CompatibilityError`, sending no request, when `authors` is supplied
non-empty below version 2. -/
theorem reviews_get_renames (ρ : Type) (t : Req → ρ) (v : Int)
    (avs : List Int) (after limit : Option Int)
    (fields authors : Option (List String)) (changes : Option (List Int))
    (has_reviewers : Option Bool) (ids : Option (List Int))
    (keywords : Option String) (participants projects states : Option (List String))
    (passes_tests : Option Bool) (not_updated_since has_voted : Option String)
    (my_comments : Option Bool) :
    (lookupKey "max" (Reviews.getParams after limit fields authors changes
        has_reviewers ids keywords participants projects states passes_tests
        not_updated_since has_voted my_comments) =
      if truthyI limit = true then some (Val.i (limit.getD 0)) else none) ∧
    (lookupKey "fields" (Reviews.getParams after limit fields authors changes
        has_reviewers ids keywords participants projects states passes_tests
        not_updated_since has_voted my_comments) =
      if truthyL fields = true
        then some (Val.s (String.intercalate "," (fields.getD []))) else none) ∧
    (lookupKey "author" (Reviews.getParams after limit fields authors changes
        has_reviewers ids keywords participants projects states passes_tests
        not_updated_since has_voted my_comments) =
      if truthyL authors = true then some (Val.sl (authors.getD [])) else none) ∧
    (lookupKey "change" (Reviews.getParams after limit fields authors changes
        has_reviewers ids keywords participants projects states passes_tests
        not_updated_since has_voted my_comments) =
      if truthyL changes = true then some (Val.il (changes.getD [])) else none) ∧
    (lookupKey "project" (Reviews.getParams after limit fields authors changes
        has_reviewers ids keywords participants projects states passes_tests
        not_updated_since has_voted my_comments) =
      if truthyL projects = true then some (Val.sl (projects.getD [])) else none) ∧
    (lookupKey "state" (Reviews.getParams after limit fields authors changes
        has_reviewers ids keywords participants projects states passes_tests
        not_updated_since has_voted my_comments) =
      if truthyL states = true then some (Val.sl (states.getD [])) else none) ∧
    (lookupKey "notUpdatedSince" (Reviews.getParams after limit fields authors
        changes has_reviewers ids keywords participants projects states
        passes_tests not_updated_since has_voted my_comments) =
      if truthyS not_updated_since = true
        then some (Val.s (not_updated_since.getD "")) else none) ∧
    (lookupKey "hasVoted" (Reviews.getParams after limit fields authors changes
        has_reviewers ids keywords participants projects states passes_tests
        not_updated_since has_voted my_comments) =
      if truthyS has_voted = true then some (Val.s (has_voted.getD "")) else none) ∧
    (truthyL authors = true → v < 2 →
      Reviews.get ⟨v, avs, t⟩ after limit fields authors changes has_reviewers
          ids keywords participants projects states passes_tests
          not_updated_since has_voted my_comments =
        .error (Exc.compatError "author field is supported from API version >= 2")) := by
  refine ⟨?_, ?_, ?_, ?_, ?_, ?_, ?_, ?_, fun ha hv => ?_⟩
  · simp +decide [Reviews.getParams, lookupKey_optEntry_append, lookupKey_optEntry]
  · simp +decide [Reviews.getParams, lookupKey_optEntry_append, lookupKey_optEntry]
  · simp +decide [Reviews.getParams, lookupKey_optEntry_append, lookupKey_optEntry]
  · simp +decide [Reviews.getParams, lookupKey_optEntry_append, lookupKey_optEntry]
  · simp +decide [Reviews.getParams, lookupKey_optEntry_append, lookupKey_optEntry]
  · simp +decide [Reviews.getParams, lookupKey_optEntry_append, lookupKey_optEntry]
  · simp +decide [Reviews.getParams, lookupKey_optEntry_append, lookupKey_optEntry]
  · simp +decide [Reviews.getParams, lookupKey_optEntry_append, lookupKey_optEntry]
  · simp [Reviews.get, ha, hv]

/-- Witness for C8: with `authors = ["alice"]` at version 1, `Reviews.get`
raises the compatibility error; the renames are exercised at concrete
values. -/
theorem reviews_get_renames_witness :
    Reviews.get ⟨1, [], (id : Req → Req)⟩ none (some 5) none (some ["alice"])
        none none none none none none none none none none none =
      .error (Exc.compatError "author field is supported from API version >= 2") ∧
    lookupKey "max" (Reviews.getParams none (some 5) none (some ["alice"])
        none none none none none none none none none none none) =
      some (Val.i 5) := by
  have h := reviews_get_renames Req id 1 [] none (some 5) none (some ["alice"])
    none none none none none none none none none none none
  exact ⟨h.2.2.2.2.2.2.2.2 (by decide) (by decide), h.1.trans (by decide)⟩

/-- Counterexample for C2: a `Groups.create` call that passes the
required-field precondition (`users` non-empty) and whose `apiVersions`
contain 11, but made at negotiated version 1, raises the `minimal_version`
compatibility error instead of sending any (JSON or form) request. -/
theorem groups_create_encoding_counterexample :
    Groups.create ⟨1, [11], (id : Req → Req)⟩ "grp" (some ["alice"]) none none
        none none none none none none none none none none none none none =
      .error (Exc.compatError "Swarm API version >= 2 required") := rfl

/-- C2 (amended): a `Groups.create` call made at negotiated version ≥ 2 that
passes the required-field precondition sends the built payload (whose `Group`
key holds the identifier) via one `POST groups` request: as a structured JSON
body when 11 is among the `apiVersions` of `get_version()`, as a form-encoded
body otherwise. -/
theorem groups_create_encoding (ρ : Type) (t : Req → ρ) (v : Int)
    (avs : List Int) (identifier : String)
    (users owners subgroups : Option (List String))
    (name description email_address : Option String)
    (notify_reviews notify_commits use_mailing_list : Option Bool)
    (max_results max_scan_rows max_lock_time max_open_files max_memory
     timeout password_timeout : Option Int)
    (hv : 2 ≤ v)
    (hreq : (truthyL users || truthyL owners || truthyL subgroups) = true) :
    lookupKey "Group" (Groups.createData identifier users owners subgroups
        name description email_address notify_reviews notify_commits
        use_mailing_list max_results max_scan_rows max_lock_time
        max_open_files max_memory timeout password_timeout) =
      some (Val.s identifier) ∧
    ((11 : Int) ∈ avs →
      Groups.create ⟨v, avs, t⟩ identifier users owners subgroups name
          description email_address notify_reviews notify_commits
          use_mailing_list max_results max_scan_rows max_lock_time
          max_open_files max_memory timeout password_timeout =
        .ok (t ⟨"POST", "groups", none, none,
          some (Groups.createData identifier users owners subgroups name
            description email_address notify_reviews notify_commits
            use_mailing_list max_results max_scan_rows max_lock_time
            max_open_files max_memory timeout password_timeout)⟩)) ∧
    ((11 : Int) ∉ avs →
      Groups.create ⟨v, avs, t⟩ identifier users owners subgroups name
          description email_address notify_reviews notify_commits
          use_mailing_list max_results max_scan_rows max_lock_time
          max_open_files max_memory timeout password_timeout =
        .ok (t ⟨"POST", "groups", none,
          some (Groups.createData identifier users owners subgroups name
            description email_address notify_reviews notify_commits
            use_mailing_list max_results max_scan_rows max_lock_time
            max_open_files max_memory timeout password_timeout), none⟩)) := by
  have hn : ¬ v < 2 := not_lt.mpr hv
  refine ⟨?_, fun h11 => ?_, fun h11 => ?_⟩
  · simp [Groups.createData, lookupKey]
  · simp [Groups.create, minimal_version, hn, hreq, h11]
  · simp [Groups.create, minimal_version, hn, hreq, h11]

/-- Witness for C2 (amended): at version 2, with `users = ["u"]`, the payload
goes out as a JSON body when `apiVersions = [11]` and as a form body when
`apiVersions = [2]`. -/
theorem groups_create_encoding_witness :
    Groups.create ⟨2, [11], (id : Req → Req)⟩ "grp" (some ["u"]) none none
        none none none none none none none none none none none none none =
      .ok ⟨"POST", "groups", none, none,
        some (Groups.createData "grp" (some ["u"]) none none none none none
          none none none none none none none none none none)⟩ ∧
    Groups.create ⟨2, [2], (id : Req → Req)⟩ "grp" (some ["u"]) none none
        none none none none none none none none none none none none none =
      .ok ⟨"POST", "groups", none,
        some (Groups.createData "grp" (some ["u"]) none none none none none
          none none none none none none none none none none), none⟩ := by
  have hj := (groups_create_encoding Req id 2 [11] "grp" (some ["u"]) none none
    none none none none none none none none none none none none none
    (by decide) (by decide)).2.1 (by decide)
  have hf := (groups_create_encoding Req id 2 [2] "grp" (some ["u"]) none none
    none none none none none none none none none none none none none
    (by decide) (by decide)).2.2 (by decide)
  exact ⟨hj, hf⟩

/-- Counterexample for C3: a `Groups.create` call with `users`, `owners` and
`subgroups` all unset, made at negotiated version 1, raises the
`minimal_version` compatibility error, not a `SwarmError` validation
error. -/
theorem groups_create_validation_counterexample :
    isValidationError (Groups.create ⟨1, [], (id : Req → Req)⟩ "grp" none none
        none none none none none none none none none none none none none
        none) = false ∧
    Groups.create ⟨1, [], (id : Req → Req)⟩ "grp" none none none none none
        none none none none none none none none none none none =
      .error (Exc.compatError "Swarm API version >= 2 required") :=
  ⟨rfl, rfl⟩

/-- C3 (amended): at negotiated version ≥ 2, a `Groups.create` call in which
`users`, `owners` and `subgroups` are all unset or empty raises the
`SwarmError` validation error (and no request is sent); a call in which at
least one of the three is non-empty never raises the validation error,
whatever the version. -/
theorem groups_create_validation (ρ : Type) (t : Req → ρ) (v : Int)
    (avs : List Int) (identifier : String)
    (users owners subgroups : Option (List String))
    (name description email_address : Option String)
    (notify_reviews notify_commits use_mailing_list : Option Bool)
    (max_results max_scan_rows max_lock_time max_open_files max_memory
     timeout password_timeout : Option Int) :
    (2 ≤ v → truthyL users = false → truthyL owners = false →
      truthyL subgroups = false →
      Groups.create ⟨v, avs, t⟩ identifier users owners subgroups name
          description email_address notify_reviews notify_commits
          use_mailing_list max_results max_scan_rows max_lock_time
          max_open_files max_memory timeout password_timeout =
        .error (Exc.swarmError "At least one of users, owners, or subgroups is required")) ∧
    ((truthyL users || truthyL owners || truthyL subgroups) = true →
      isValidationError (Groups.create ⟨v, avs, t⟩ identifier users owners
        subgroups name description email_address notify_reviews notify_commits
        use_mailing_list max_results max_scan_rows max_lock_time
        max_open_files max_memory timeout password_timeout) = false) := by
  constructor
  · intro hv hu ho hs
    have hn : ¬ v < 2 := not_lt.mpr hv
    simp [Groups.create, minimal_version, hn, hu, ho, hs]
  · intro hreq
    by_cases hv : v < 2
    · simp [Groups.create, minimal_version, hv, isValidationError]
    · by_cases h11 : (11 : Int) ∈ avs <;>
        simp [Groups.create, minimal_version, hv, hreq, h11, isValidationError]

/-- Witness for C3 (amended): at version 2 with all three member lists unset
the validation error is raised; with `users = ["u"]` it is not. -/
theorem groups_create_validation_witness :
    Groups.create ⟨2, [], (id : Req → Req)⟩ "grp" none none none none none
        none none none none none none none none none none none =
      .error (Exc.swarmError "At least one of users, owners, or subgroups is required") ∧
    isValidationError (Groups.create ⟨2, [], (id : Req → Req)⟩ "grp"
        (some ["u"]) none none none none none none none none none none none
        none none none none) = false := by
  have he := (groups_create_validation Req id 2 [] "grp" none none none none
    none none none none none none none none none none none none).1
    (by decide) rfl rfl rfl
  have hok := (groups_create_validation Req id 2 [] "grp" (some ["u"]) none
    none none none none none none none none none none none none none
    none).2 (by decide)
  exact ⟨he, hok⟩

/-- C7: every operation of `Groups` and `Reviews` is atomic with respect to
the transport: each call either raises an exception (a validation or
compatibility error) that does not depend on the transport at all — so it is
raised before the shared request method is invoked — or there is one request
descriptor, independent of the transport, whose transport response the call
returns. -/
theorem endpoint_atomicity :
    (∀ (v : Int) (avs : List Int) (after : Option String) (limit : Option Int)
        (fields : Option (List String)) (keywords : Option String),
      CallShape (fun ρ t => Groups.get ⟨v, avs, t⟩ after limit fields keywords)) ∧
    (∀ (v : Int) (avs : List Int) (identifier : String)
        (fields : Option (List String)),
      CallShape (fun ρ t => Groups.get_info ⟨v, avs, t⟩ identifier fields)) ∧
    (∀ (v : Int) (avs : List Int) (identifier : String)
        (users owners subgroups : Option (List String))
        (name description email_address : Option String)
        (notify_reviews notify_commits use_mailing_list : Option Bool)
        (max_results max_scan_rows max_lock_time max_open_files max_memory
         timeout password_timeout : Option Int),
      CallShape (fun ρ t => Groups.create ⟨v, avs, t⟩ identifier users owners
        subgroups name description email_address notify_reviews notify_commits
        use_mailing_list max_results max_scan_rows max_lock_time
        max_open_files max_memory timeout password_timeout)) ∧
    (∀ (v : Int) (avs : List Int) (identifier : String)
        (users owners subgroups : Option (List String))
        (name description email_address : Option String)
        (notify_reviews notify_commits use_mailing_list : Option Bool),
      CallShape (fun ρ t => Groups.edit ⟨v, avs, t⟩ identifier users owners
        subgroups name description email_address notify_reviews notify_commits
        use_mailing_list)) ∧
    (∀ (v : Int) (avs : List Int) (identifier : String),
      CallShape (fun ρ t => Groups.delete ⟨v, avs, t⟩ identifier)) ∧
    (∀ (v : Int) (avs : List Int) (after limit : Option Int)
        (fields authors : Option (List String)) (changes : Option (List Int))
        (has_reviewers : Option Bool) (ids : Option (List Int))
        (keywords : Option String)
        (participants projects states : Option (List String))
        (passes_tests : Option Bool)
        (not_updated_since has_voted : Option String)
        (my_comments : Option Bool),
      CallShape (fun ρ t => Reviews.get ⟨v, avs, t⟩ after limit fields authors
        changes has_reviewers ids keywords participants projects states
        passes_tests not_updated_since has_voted my_comments)) ∧
    (∀ (v : Int) (avs : List Int) (review_id : Int)
        (fields : Option (List String)),
      CallShape (fun ρ t => Reviews.get_info ⟨v, avs, t⟩ review_id fields)) ∧
    (∀ (v : Int) (avs : List Int) (review_id : Int) (up_voters : Option String),
      CallShape (fun ρ t => Reviews.get_transitions ⟨v, avs, t⟩ review_id up_voters)) ∧
    (∀ (v : Int) (avs : List Int) (change : Int) (description : Option String)
        (reviewers required_reviewers reviewer_groups : Option (List String)),
      CallShape (fun ρ t => Reviews.create ⟨v, avs, t⟩ change description
        reviewers required_reviewers reviewer_groups)) ∧
    (∀ (v : Int) (avs : List Int) (not_updated_since description : String),
      CallShape (fun ρ t => Reviews.archive ⟨v, avs, t⟩ not_updated_since description)) ∧
    (∀ (v : Int) (avs : List Int) (review_id : Int) (reopen : Option Bool),
      CallShape (fun ρ t => Reviews.cleanup ⟨v, avs, t⟩ review_id reopen)) :=
  ⟨callShape_groups_get, callShape_groups_get_info, callShape_groups_create,
   callShape_groups_edit, callShape_groups_delete, callShape_reviews_get,
   callShape_reviews_get_info, callShape_reviews_get_transitions,
   callShape_reviews_create, callShape_reviews_archive, callShape_reviews_cleanup⟩

/-- C9: every operation of `Groups` and `Reviews` that returns successfully
returns exactly the transport's response to the single request it dispatched,
unmodified. -/
theorem endpoint_pass_through :
    (∀ (v : Int) (avs : List Int) (after : Option String) (limit : Option Int)
        (fields : Option (List String)) (keywords : Option String)
        (ρ : Type) (t : Req → ρ) (r : ρ),
      Groups.get ⟨v, avs, t⟩ after limit fields keywords = .ok r →
        ∃ req, r = t req) ∧
    (∀ (v : Int) (avs : List Int) (identifier : String)
        (fields : Option (List String)) (ρ : Type) (t : Req → ρ) (r : ρ),
      Groups.get_info ⟨v, avs, t⟩ identifier fields = .ok r →
        ∃ req, r = t req) ∧
    (∀ (v : Int) (avs : List Int) (identifier : String)
        (users owners subgroups : Option (List String))
        (name description email_address : Option String)
        (notify_reviews notify_commits use_mailing_list : Option Bool)
        (max_results max_scan_rows max_lock_time max_open_files max_memory
         timeout password_timeout : Option Int) (ρ : Type) (t : Req → ρ) (r : ρ),
      Groups.create ⟨v, avs, t⟩ identifier users owners subgroups name
          description email_address notify_reviews notify_commits
          use_mailing_list max_results max_scan_rows max_lock_time
          max_open_files max_memory timeout password_timeout = .ok r →
        ∃ req, r = t req) ∧
    (∀ (v : Int) (avs : List Int) (identifier : String)
        (users owners subgroups : Option (List String))
        (name description email_address : Option String)
        (notify_reviews notify_commits use_mailing_list : Option Bool)
        (ρ : Type) (t : Req → ρ) (r : ρ),
      Groups.edit ⟨v, avs, t⟩ identifier users owners subgroups name
          description email_address notify_reviews notify_commits
          use_mailing_list = .ok r → ∃ req, r = t req) ∧
    (∀ (v : Int) (avs : List Int) (identifier : String) (ρ : Type)
        (t : Req → ρ) (r : ρ),
      Groups.delete ⟨v, avs, t⟩ identifier = .ok r → ∃ req, r = t req) ∧
    (∀ (v : Int) (avs : List Int) (after limit : Option Int)
        (fields authors : Option (List String)) (changes : Option (List Int))
        (has_reviewers : Option Bool) (ids : Option (List Int))
        (keywords : Option String)
        (participants projects states : Option (List String))
        (passes_tests : Option Bool)
        (not_updated_since has_voted : Option String)
        (my_comments : Option Bool) (ρ : Type) (t : Req → ρ) (r : ρ),
      Reviews.get ⟨v, avs, t⟩ after limit fields authors changes has_reviewers
          ids keywords participants projects states passes_tests
          not_updated_since has_voted my_comments = .ok r →
        ∃ req, r = t req) ∧
    (∀ (v : Int) (avs : List Int) (review_id : Int)
        (fields : Option (List String)) (ρ : Type) (t : Req → ρ) (r : ρ),
      Reviews.get_info ⟨v, avs, t⟩ review_id fields = .ok r →
        ∃ req, r = t req) ∧
    (∀ (v : Int) (avs : List Int) (review_id : Int) (up_voters : Option String)
        (ρ : Type) (t : Req → ρ) (r : ρ),
      Reviews.get_transitions ⟨v, avs, t⟩ review_id up_voters = .ok r →
        ∃ req, r = t req) ∧
    (∀ (v : Int) (avs : List Int) (change : Int) (description : Option String)
        (reviewers required_reviewers reviewer_groups : Option (List String))
        (ρ : Type) (t : Req → ρ) (r : ρ),
      Reviews.create ⟨v, avs, t⟩ change description reviewers
          required_reviewers reviewer_groups = .ok r → ∃ req, r = t req) ∧
    (∀ (v : Int) (avs : List Int) (not_updated_since description : String)
        (ρ : Type) (t : Req → ρ) (r : ρ),
      Reviews.archive ⟨v, avs, t⟩ not_updated_since description = .ok r →
        ∃ req, r = t req) ∧
    (∀ (v : Int) (avs : List Int) (review_id : Int) (reopen : Option Bool)
        (ρ : Type) (t : Req → ρ) (r : ρ),
      Reviews.cleanup ⟨v, avs, t⟩ review_id reopen = .ok r →
        ∃ req, r = t req) :=
  ⟨fun v avs a l f k ρ t r hr =>
      CallShape.ok_eq _ (callShape_groups_get v avs a l f k) ρ t r hr,
   fun v avs i f ρ t r hr =>
      CallShape.ok_eq _ (callShape_groups_get_info v avs i f) ρ t r hr,
   fun v avs i u o s n d e nr nc um m1 m2 m3 m4 m5 m6 m7 ρ t r hr =>
      CallShape.ok_eq _
        (callShape_groups_create v avs i u o s n d e nr nc um m1 m2 m3 m4 m5 m6 m7)
        ρ t r hr,
   fun v avs i u o s n d e nr nc um ρ t r hr =>
      CallShape.ok_eq _ (callShape_groups_edit v avs i u o s n d e nr nc um) ρ t r hr,
   fun v avs i ρ t r hr =>
      CallShape.ok_eq _ (callShape_groups_delete v avs i) ρ t r hr,
   fun v avs a l f au c hrv i k p pj st pt nus hvt mc ρ t r hr =>
      CallShape.ok_eq _
        (callShape_reviews_get v avs a l f au c hrv i k p pj st pt nus hvt mc)
        ρ t r hr,
   fun v avs i f ρ t r hr =>
      CallShape.ok_eq _ (callShape_reviews_get_info v avs i f) ρ t r hr,
   fun v avs i u ρ t r hr =>
      CallShape.ok_eq _ (callShape_reviews_get_transitions v avs i u) ρ t r hr,
   fun v avs c d rv rr rg ρ t r hr =>
      CallShape.ok_eq _ (callShape_reviews_create v avs c d rv rr rg) ρ t r hr,
   fun v avs n d ρ t r hr =>
      CallShape.ok_eq _ (callShape_reviews_archive v avs n d) ρ t r hr,
   fun v avs i rp ρ t r hr =>
      CallShape.ok_eq _ (callShape_reviews_cleanup v avs i rp) ρ t r hr⟩

/-- Witness for C9: a successful `Groups.get` call at version 2 with the
identity transport returns the dispatched request descriptor itself. -/
theorem endpoint_pass_through_witness :
    ∃ req, (⟨"GET", "groups", some (Groups.getParams none none none none),
      none, none⟩ : Req) = id req :=
  endpoint_pass_through.1 2 [] none none none none Req id
    ⟨"GET", "groups", some (Groups.getParams none none none none), none, none⟩ rfl

/-- Counterexample for C4: in `Groups.create`, the caller-supplied non-null
boolean value `notify_reviews = false` produces no
`config[emailFlags][reviews]` wire key (the source includes it only when
truthy), and the caller-supplied non-null integer `limit = 0` in
`Reviews.get` produces no `max` wire key. -/
theorem params_included_iff_supplied_counterexample :
    lookupKey "config[emailFlags][reviews]" (Groups.createData "grp"
        (some ["alice"]) none none none none none (some false) none none none
        none none none none none none) = none ∧
    lookupKey "max" (Reviews.getParams none (some 0) none none none none none
        none none none none none none none none) = none :=
  ⟨rfl, rfl⟩

set_option maxHeartbeats 3200000 in
/-- C4 (amended): for every operation of `Groups` and `Reviews` and every
optional parameter, the parameter's wire key is included in the built
parameter/payload mapping if and only if the caller supplied a Python-truthy
value for it (non-null and non-zero / non-empty / not `false`) — except the
three tri-state boolean filters of `Reviews.get`, which are included if and
only if they are supplied at all. -/
theorem params_included_iff_truthy :
    (∀ (after : Option String) (limit : Option Int)
        (fields : Option (List String)) (keywords : Option String),
      (lookupKey "after" (Groups.getParams after limit fields keywords) =
        if truthyS after = true then some (Val.s (after.getD "")) else none) ∧
      (lookupKey "max" (Groups.getParams after limit fields keywords) =
        if truthyI limit = true then some (Val.i (limit.getD 0)) else none) ∧
      (lookupKey "fields" (Groups.getParams after limit fields keywords) =
        if truthyL fields = true
          then some (Val.s (String.intercalate "," (fields.getD []))) else none) ∧
      (lookupKey "keywords" (Groups.getParams after limit fields keywords) =
        if truthyS keywords = true then some (Val.s (keywords.getD "")) else none)) ∧
    (∀ (fields : Option (List String)),
      lookupKey "fields" (Groups.get_infoParams fields) =
        if truthyL fields = true
          then some (Val.s (String.intercalate "," (fields.getD []))) else none) ∧
    (∀ (identifier : String) (users owners subgroups : Option (List String))
        (name description email_address : Option String)
        (notify_reviews notify_commits use_mailing_list : Option Bool)
        (max_results max_scan_rows max_lock_time max_open_files max_memory
         timeout password_timeout : Option Int),
      (lookupKey "Users" (Groups.createData identifier users owners subgroups
          name description email_address notify_reviews notify_commits
          use_mailing_list max_results max_scan_rows max_lock_time
          max_open_files max_memory timeout password_timeout) =
        if truthyL users = true then some (Val.sl (users.getD [])) else none) ∧
      (lookupKey "Owners" (Groups.createData identifier users owners subgroups
          name description email_address notify_reviews notify_commits
          use_mailing_list max_results max_scan_rows max_lock_time
          max_open_files max_memory timeout password_timeout) =
        if truthyL owners = true then some (Val.sl (owners.getD [])) else none) ∧
      (lookupKey "Subgroups" (Groups.createData identifier users owners
          subgroups name description email_address notify_reviews
          notify_commits use_mailing_list max_results max_scan_rows
          max_lock_time max_open_files max_memory timeout password_timeout) =
        if truthyL subgroups = true then some (Val.sl (subgroups.getD [])) else none) ∧
      (lookupKey "config[name]" (Groups.createData identifier users owners
          subgroups name description email_address notify_reviews
          notify_commits use_mailing_list max_results max_scan_rows
          max_lock_time max_open_files max_memory timeout password_timeout) =
        if truthyS name = true then some (Val.s (name.getD "")) else none) ∧
      (lookupKey "config[description]" (Groups.createData identifier users
          owners subgroups name description email_address notify_reviews
          notify_commits use_mailing_list max_results max_scan_rows
          max_lock_time max_open_files max_memory timeout password_timeout) =
        if truthyS description = true then some (Val.s (description.getD "")) else none) ∧
      (lookupKey "config[emailAddress]" (Groups.createData identifier users
          owners subgroups name description email_address notify_reviews
          notify_commits use_mailing_list max_results max_scan_rows
          max_lock_time max_open_files max_memory timeout password_timeout) =
        if truthyS email_address = true
          then some (Val.s (email_address.getD "")) else none) ∧
      (lookupKey "config[emailFlags][reviews]" (Groups.createData identifier
          users owners subgroups name description email_address notify_reviews
          notify_commits use_mailing_list max_results max_scan_rows
          max_lock_time max_open_files max_memory timeout password_timeout) =
        if truthyB notify_reviews = true
          then some (Val.b (notify_reviews.getD false)) else none) ∧
      (lookupKey "config[emailFlags][commits]" (Groups.createData identifier
          users owners subgroups name description email_address notify_reviews
          notify_commits use_mailing_list max_results max_scan_rows
          max_lock_time max_open_files max_memory timeout password_timeout) =
        if truthyB notify_commits = true
          then some (Val.b (notify_commits.getD false)) else none) ∧
      (lookupKey "config[useMailingList]" (Groups.createData identifier users
          owners subgroups name description email_address notify_reviews
          notify_commits use_mailing_list max_results max_scan_rows
          max_lock_time max_open_files max_memory timeout password_timeout) =
        if truthyB use_mailing_list = true
          then some (Val.b (use_mailing_list.getD false)) else none) ∧
      (lookupKey "MaxResults" (Groups.createData identifier users owners
          subgroups name description email_address notify_reviews
          notify_commits use_mailing_list max_results max_scan_rows
          max_lock_time max_open_files max_memory timeout password_timeout) =
        if truthyI max_results = true then some (Val.i (max_results.getD 0)) else none) ∧
      (lookupKey "MaxScanRows" (Groups.createData identifier users owners
          subgroups name description email_address notify_reviews
          notify_commits use_mailing_list max_results max_scan_rows
          max_lock_time max_open_files max_memory timeout password_timeout) =
        if truthyI max_scan_rows = true
          then some (Val.i (max_scan_rows.getD 0)) else none) ∧
      (lookupKey "MaxLockTime" (Groups.createData identifier users owners
          subgroups name description email_address notify_reviews
          notify_commits use_mailing_list max_results max_scan_rows
          max_lock_time max_open_files max_memory timeout password_timeout) =
        if truthyI max_lock_time = true
          then some (Val.i (max_lock_time.getD 0)) else none) ∧
      (lookupKey "MaxOpenFiles" (Groups.createData identifier users owners
          subgroups name description email_address notify_reviews
          notify_commits use_mailing_list max_results max_scan_rows
          max_lock_time max_open_files max_memory timeout password_timeout) =
        if truthyI max_open_files = true
          then some (Val.i (max_open_files.getD 0)) else none) ∧
      (lookupKey "MaxMemory" (Groups.createData identifier users owners
          subgroups name description email_address notify_reviews
          notify_commits use_mailing_list max_results max_scan_rows
          max_lock_time max_open_files max_memory timeout password_timeout) =
        if truthyI max_memory = true then some (Val.i (max_memory.getD 0)) else none) ∧
      (lookupKey "Timeout" (Groups.createData identifier users owners
          subgroups name description email_address notify_reviews
          notify_commits use_mailing_list max_results max_scan_rows
          max_lock_time max_open_files max_memory timeout password_timeout) =
        if truthyI timeout = true then some (Val.i (timeout.getD 0)) else none) ∧
      (lookupKey "PasswordTimeout" (Groups.createData identifier users owners
          subgroups name description email_address notify_reviews
          notify_commits use_mailing_list max_results max_scan_rows
          max_lock_time max_open_files max_memory timeout password_timeout) =
        if truthyI password_timeout = true
          then some (Val.i (password_timeout.getD 0)) else none)) ∧
    (∀ (users owners subgroups : Option (List String))
        (name description email_address : Option String)
        (notify_reviews notify_commits use_mailing_list : Option Bool),
      (lookupKey "Users" (Groups.editData users owners subgroups name
          description email_address notify_reviews notify_commits
          use_mailing_list) =
        if truthyL users = true then some (Val.sl (users.getD [])) else none) ∧
      (lookupKey "Owners" (Groups.editData users owners subgroups name
          description email_address notify_reviews notify_commits
          use_mailing_list) =
        if truthyL owners = true then some (Val.sl (owners.getD [])) else none) ∧
      (lookupKey "Subgroups" (Groups.editData users owners subgroups name
          description email_address notify_reviews notify_commits
          use_mailing_list) =
        if truthyL subgroups = true then some (Val.sl (subgroups.getD [])) else none) ∧
      (lookupKey "config[name]" (Groups.editData users owners subgroups name
          description email_address notify_reviews notify_commits
          use_mailing_list) =
        if truthyS name = true then some (Val.s (name.getD "")) else none) ∧
      (lookupKey "config[description]" (Groups.editData users owners subgroups
          name description email_address notify_reviews notify_commits
          use_mailing_list) =
        if truthyS description = true then some (Val.s (description.getD "")) else none) ∧
      (lookupKey "config[emailAddress]" (Groups.editData users owners
          subgroups name description email_address notify_reviews
          notify_commits use_mailing_list) =
        if truthyS email_address = true
          then some (Val.s (email_address.getD "")) else none) ∧
      (lookupKey "config[emailFlags][reviews]" (Groups.editData users owners
          subgroups name description email_address notify_reviews
          notify_commits use_mailing_list) =
        if truthyB notify_reviews = true
          then some (Val.b (notify_reviews.getD false)) else none) ∧
      (lookupKey "config[emailFlags][commits]" (Groups.editData users owners
          subgroups name description email_address notify_reviews
          notify_commits use_mailing_list) =
        if truthyB notify_commits = true
          then some (Val.b (notify_commits.getD false)) else none) ∧
      (lookupKey "config[useMailingList]" (Groups.editData users owners
          subgroups name description email_address notify_reviews
          notify_commits use_mailing_list) =
        if truthyB use_mailing_list = true
          then some (Val.b (use_mailing_list.getD false)) else none)) ∧
    (∀ (after limit : Option Int) (fields authors : Option (List String))
        (changes : Option (List Int)) (has_reviewers : Option Bool)
        (ids : Option (List Int)) (keywords : Option String)
        (participants projects states : Option (List String))
        (passes_tests : Option Bool)
        (not_updated_since has_voted : Option String)
        (my_comments : Option Bool),
      (lookupKey "after" (Reviews.getParams after limit fields authors changes
          has_reviewers ids keywords participants projects states passes_tests
          not_updated_since has_voted my_comments) =
        if truthyI after = true then some (Val.i (after.getD 0)) else none) ∧
      (lookupKey "max" (Reviews.getParams after limit fields authors changes
          has_reviewers ids keywords participants projects states passes_tests
          not_updated_since has_voted my_comments) =
        if truthyI limit = true then some (Val.i (limit.getD 0)) else none) ∧
      (lookupKey "fields" (Reviews.getParams after limit fields authors
          changes has_reviewers ids keywords participants projects states
          passes_tests not_updated_since has_voted my_comments) =
        if truthyL fields = true
          then some (Val.s (String.intercalate "," (fields.getD []))) else none) ∧
      (lookupKey "author" (Reviews.getParams after limit fields authors
          changes has_reviewers ids keywords participants projects states
          passes_tests not_updated_since has_voted my_comments) =
        if truthyL authors = true then some (Val.sl (authors.getD [])) else none) ∧
      (lookupKey "change" (Reviews.getParams after limit fields authors
          changes has_reviewers ids keywords participants projects states
          passes_tests not_updated_since has_voted my_comments) =
        if truthyL changes = true then some (Val.il (changes.getD [])) else none) ∧
      (lookupKey "hasReviewers" (Reviews.getParams after limit fields authors
          changes has_reviewers ids keywords participants projects states
          passes_tests not_updated_since has_voted my_comments) =
        if has_reviewers.isSome = true
          then some (Val.s (boolStr (has_reviewers.getD false))) else none) ∧
      (lookupKey "ids" (Reviews.getParams after limit fields authors changes
          has_reviewers ids keywords participants projects states passes_tests
          not_updated_since has_voted my_comments) =
        if truthyL ids = true then some (Val.il (ids.getD [])) else none) ∧
      (lookupKey "keywords" (Reviews.getParams after limit fields authors
          changes has_reviewers ids keywords participants projects states
          passes_tests not_updated_since has_voted my_comments) =
        if truthyS keywords = true then some (Val.s (keywords.getD "")) else none) ∧
      (lookupKey "participants" (Reviews.getParams after limit fields authors
          changes has_reviewers ids keywords participants projects states
          passes_tests not_updated_since has_voted my_comments) =
        if truthyL participants = true
          then some (Val.sl (participants.getD [])) else none) ∧
      (lookupKey "project" (Reviews.getParams after limit fields authors
          changes has_reviewers ids keywords participants projects states
          passes_tests not_updated_since has_voted my_comments) =
        if truthyL projects = true then some (Val.sl (projects.getD [])) else none) ∧
      (lookupKey "state" (Reviews.getParams after limit fields authors changes
          has_reviewers ids keywords participants projects states passes_tests
          not_updated_since has_voted my_comments) =
        if truthyL states = true then some (Val.sl (states.getD [])) else none) ∧
      (lookupKey "passesTests" (Reviews.getParams after limit fields authors
          changes has_reviewers ids keywords participants projects states
          passes_tests not_updated_since has_voted my_comments) =
        if passes_tests.isSome = true
          then some (Val.s (boolStr (passes_tests.getD false))) else none) ∧
      (lookupKey "notUpdatedSince" (Reviews.getParams after limit fields
          authors changes has_reviewers ids keywords participants projects
          states passes_tests not_updated_since has_voted my_comments) =
        if truthyS not_updated_since = true
          then some (Val.s (not_updated_since.getD "")) else none) ∧
      (lookupKey "hasVoted" (Reviews.getParams after limit fields authors
          changes has_reviewers ids keywords participants projects states
          passes_tests not_updated_since has_voted my_comments) =
        if truthyS has_voted = true then some (Val.s (has_voted.getD "")) else none) ∧
      (lookupKey "myComments" (Reviews.getParams after limit fields authors
          changes has_reviewers ids keywords participants projects states
          passes_tests not_updated_since has_voted my_comments) =
        if my_comments.isSome = true
          then some (Val.s (boolStr (my_comments.getD false))) else none)) ∧
    (∀ (fields : Option (List String)),
      lookupKey "fields" (Reviews.get_infoParams fields) =
        if truthyL fields = true
          then some (Val.s (String.intercalate "," (fields.getD []))) else none) ∧
    (∀ (up_voters : Option String),
      lookupKey "upVoters" (Reviews.transParams up_voters) =
        if truthyS up_voters = true then some (Val.s (up_voters.getD "")) else none) ∧
    (∀ (change : Int) (description : Option String)
        (reviewers required_reviewers reviewer_groups : Option (List String)),
      (lookupKey "description" (Reviews.createData change description
          reviewers required_reviewers reviewer_groups) =
        if truthyS description = true
          then some (Val.s (description.getD "")) else none) ∧
      (lookupKey "reviewers" (Reviews.createData change description reviewers
          required_reviewers reviewer_groups) =
        if truthyL reviewers = true then some (Val.sl (reviewers.getD [])) else none) ∧
      (lookupKey "requiredReviewers" (Reviews.createData change description
          reviewers required_reviewers reviewer_groups) =
        if truthyL required_reviewers = true
          then some (Val.sl (required_reviewers.getD [])) else none) ∧
      (lookupKey "reviewerGroups" (Reviews.createData change description
          reviewers required_reviewers reviewer_groups) =
        if truthyL reviewer_groups = true
          then some (Val.sl (reviewer_groups.getD [])) else none)) ∧
    (∀ (reopen : Option Bool),
      lookupKey "reopen" (Reviews.cleanupData reopen) =
        if truthyB reopen = true then some (Val.b (reopen.getD false)) else none) := by
  refine ⟨?_, ?_, ?_, ?_, ?_, ?_, ?_, ?_, ?_⟩
  · intro after limit fields keywords
    refine ⟨?_, ?_, ?_, ?_⟩ <;>
      simp +decide [Groups.getParams, lookupKey_optEntry_append, lookupKey_optEntry]
  · intro fields
    simp +decide [Groups.get_infoParams, lookupKey_optEntry]
  · intro identifier users owners subgroups name description email_address
      notify_reviews notify_commits use_mailing_list max_results max_scan_rows
      max_lock_time max_open_files max_memory timeout password_timeout
    refine ⟨?_, ?_, ?_, ?_, ?_, ?_, ?_, ?_, ?_, ?_, ?_, ?_, ?_, ?_, ?_, ?_⟩ <;>
      simp +decide [Groups.createData, lookupKey, lookupKey_optEntry_append,
        lookupKey_optEntry]
  · intro users owners subgroups name description email_address notify_reviews
      notify_commits use_mailing_list
    refine ⟨?_, ?_, ?_, ?_, ?_, ?_, ?_, ?_, ?_⟩ <;>
      simp +decide [Groups.editData, lookupKey_optEntry_append, lookupKey_optEntry]
  · intro after limit fields authors changes has_reviewers ids keywords
      participants projects states passes_tests not_updated_since has_voted
      my_comments
    refine ⟨?_, ?_, ?_, ?_, ?_, ?_, ?_, ?_, ?_, ?_, ?_, ?_, ?_, ?_, ?_⟩ <;>
      simp +decide [Reviews.getParams, lookupKey_optEntry_append, lookupKey_optEntry]
  · intro fields
    simp +decide [Reviews.get_infoParams, lookupKey_optEntry]
  · intro up_voters
    simp +decide [Reviews.transParams, lookupKey_optEntry]
  · intro change description reviewers required_reviewers reviewer_groups
    refine ⟨?_, ?_, ?_, ?_⟩ <;>
      simp +decide [Reviews.createData, lookupKey, lookupKey_optEntry_append,
        lookupKey_optEntry]
  · intro reopen
    simp +decide [Reviews.cleanupData, lookupKey_optEntry]

end HelixSwarm
